import Mathlib

/-!
Verification of the authentication middleware of the `anp-agent-example`
repository (`src/auth_middleware.py`), shallowly embedded in Lean 4.

Python strings are modelled as `List Char`; Starlette header collections are
modelled as association lists whose keys are already lowercased, matching what
`dict(request.headers)` yields.  The external DID-WBA verifier and the
downstream handler (`call_next`) are abstracted as parameters; the middleware
body itself is translated statement by statement, and an event trace records
the observable calls (exemption check, `verify_auth_header` entry, external
verifier invocation, downstream handler invocation).
-/

namespace Anp

/-- Python strings, modelled as lists of characters. -/
abbrev Str := List Char

/-- `s.startswith(pre)` on the character-list model of strings. -/
def strStartsWith : Str → Str → Bool
  | _, [] => true
  | [], _ :: _ => false
  | c :: cs, p :: ps => c == p && strStartsWith cs ps

/-- `s.endswith(suf)` on the character-list model of strings. -/
def strEndsWith (s suf : Str) : Bool :=
  strStartsWith s.reverse suf.reverse

/-- Python `sub in s` (substring containment). -/
def strContains (s sub : Str) : Bool :=
  match s with
  | [] => strStartsWith [] sub
  | c :: cs => strStartsWith (c :: cs) sub || strContains cs sub

/-- Python `s.lower()` (the keywords involved are ASCII). -/
def strLower (s : Str) : Str := s.map Char.toLower

/-- The `EXEMPT_PATHS` table of `auth_middleware.py`, in declaration order. -/
def EXEMPT_PATHS : List Str := [
  "/favicon.ico".data,
  "/v1/status".data,
  "/health".data,
  "/docs".data,
  "/redoc".data,
  "/openapi.json".data,
  "/wba/user/".data,
  "/".data,
  "/v1/chat".data,
  "/static/".data,
  "/agents/test/ad.json".data
]

/-- The body of the exemption loop of `authenticate_request`: does one table
entry `e` exempt `path`?  Mirrors the `if`/`elif` chain of lines 101-120. -/
def exemptEntryMatches (path e : Str) : Bool :=
  if e == "/".data then
    path == "/".data
  else
    path == e
      || (strEndsWith e "/".data && strStartsWith path e)
      || (!strEndsWith e "/".data && strStartsWith path (e ++ "/".data))

/-- The exemption loop of `authenticate_request`: scan the entries in
declaration order and return the first matching one, if any. -/
def findExemptMatch : List Str → Str → Option Str
  | [], _ => none
  | e :: rest, path =>
    if exemptEntryMatches path e then some e else findExemptMatch rest path

/-- Is `path` exempt from authentication, per `authenticate_request`? -/
def isExemptPath (path : Str) : Bool :=
  (findExemptMatch EXEMPT_PATHS path).isSome

/-- Modelled from the spec: the matching rule of one exempt-table entry as
stated in section 4.1 — the literal `"/"` matches only the path `"/"`; an
entry ending in `"/"` matches any path that starts with it; any other entry
`E` matches a path equal to `E` or starting with `E ++ "/"`. -/
def specEntryMatches (path e : Str) : Bool :=
  if e == "/".data then
    path == "/".data
  else if strEndsWith e "/".data then
    strStartsWith path e
  else
    path == e || strStartsWith path (e ++ "/".data)

/-- An inbound HTTP request: its URL path and its header collection.
`headers` models `dict(request.headers)`: keys already lowercased, one entry
per header. -/
structure Request where
  path : Str
  headers : List (Str × Str)

/-- `headers.get(name)`: first-match association-list lookup. -/
def hGet : List (Str × Str) → Str → Option Str
  | [], _ => none
  | (k, v) :: rest, name => if k == name then some v else hGet rest name

/-- `request.headers.get("Authorization")` (case-insensitive header names,
hence the lowercase lookup). -/
def reqAuthorization (req : Request) : Option Str :=
  hGet req.headers "authorization".data

/-- `request.headers.get("host", "")`. -/
def reqHost (req : Request) : Option Str :=
  hGet req.headers "host".data

/-- `_get_and_validate_domain`: the Host header value (or `""` when absent)
split at the first `":"`, keeping the part before it. -/
def get_and_validate_domain (req : Request) : Str :=
  ((reqHost req).getD []).takeWhile (fun c => c != ':')

/-- A successful verification result returned by the external
`DidWbaVerifier.verify_auth_header`: the fields the middleware reads. -/
structure VerifyResult where
  token_type : Option Str
  access_token : Str
deriving DecidableEq

/-- Outcome of one call to the external verifier: success, a typed
`DidWbaVerifierError` carrying a status code and message, or any other
exception carrying a message. -/
inductive VerifierOutcome where
  | ok (result : VerifyResult)
  | didwbaError (status : Nat) (message : Str)
  | unexpected (message : Str)
deriving DecidableEq

/-- An HTTP response, as far as the middleware observes or edits it: status
code, the `authorization` response header, and the `detail` field of a JSON
body when the response is a `JSONResponse({"detail": ...})`. -/
structure Response where
  status : Nat
  authorization : Option Str
  detail : Option Str
deriving DecidableEq

/-- Outcome of the downstream handler `call_next`: a response, a raised
`HTTPException`, or any other exception carrying a message. -/
inductive HandlerOutcome where
  | ok (resp : Response)
  | httpError (status : Nat) (detail : Str)
  | unexpected (message : Str)
deriving DecidableEq

/-- Observable events of one middleware pass, in order of occurrence. -/
inductive Event where
  | exemptionCheck (exempt : Bool)
  | adapterCall
  | verifierCall (header : Str) (domain : Str)
  | handlerCall
deriving DecidableEq

/-- A failure propagating out of `verify_auth_header` /
`authenticate_request`: an `HTTPException` or any other exception. -/
inductive AuthFailure where
  | http (status : Nat) (detail : Str)
  | unexpected (message : Str)
deriving DecidableEq

/-- `verify_auth_header` (lines 77-90): reject an absent or empty
`Authorization` header with 401, otherwise delegate to the external verifier
with (header, domain) and translate `DidWbaVerifierError` into an
`HTTPException` with the error's status code and message.  Returns the events
it emits (the external verifier invocation, when it happens) together with
its result. -/
def verify_auth_header (req : Request)
    (verifier : Str → Str → VerifierOutcome) :
    List Event × Except AuthFailure VerifyResult :=
  let auth_header := (reqAuthorization req).getD []
  if auth_header == [] then
    ([], .error (.http 401 "Missing authorization header".data))
  else
    let domain := get_and_validate_domain req
    match verifier auth_header domain with
    | .ok r => ([.verifierCall auth_header domain], .ok r)
    | .didwbaError s m => ([.verifierCall auth_header domain], .error (.http s m))
    | .unexpected m => ([.verifierCall auth_header domain], .error (.unexpected m))

/-- `authenticate_request` (lines 93-123): return `none` for exempt paths
without touching the verifier, otherwise call `verify_auth_header`. -/
def authenticate_request (req : Request)
    (verifier : Str → Str → VerifierOutcome) :
    List Event × Except AuthFailure (Option VerifyResult) :=
  if isExemptPath req.path then
    ([.exemptionCheck true], .ok none)
  else
    match verify_auth_header req verifier with
    | (evs, .ok r) => (.exemptionCheck false :: .adapterCall :: evs, .ok (some r))
    | (evs, .error e) => (.exemptionCheck false :: .adapterCall :: evs, .error e)

/-- The keyword sniff on line 156: does the lowercased exception message
contain one of the credential-related substrings? -/
def keywordMatch (m : Str) : Bool :=
  ["authorization".data, "bearer".data, "didwba".data, "token".data,
   "format".data].any (fun k => strContains (strLower m) k)

/-- The `except Exception` fallback of `auth_middleware` (lines 152-162):
credential-looking messages become a 401 embedding the exception text,
everything else a generic 500. -/
def unexpectedToResponse (m : Str) : Response :=
  if keywordMatch m then
    { status := 401, authorization := none,
      detail := some ("Authentication error: ".data ++ m) }
  else
    { status := 500, authorization := none,
      detail := some "Internal server error".data }

/-- Result of one full middleware pass: the response sent to the client, the
event trace, and the final value of `request.state.headers` (`none` when the
assignment on line 131 was never reached). -/
structure MiddlewareResult where
  response : Response
  trace : List Event
  state_headers : Option (List (Str × Str))
deriving DecidableEq

/-- `auth_middleware` (lines 126-162): authenticate, store the inbound
headers in request state, invoke the downstream handler, rotate or echo the
`authorization` response header on verified requests, and translate
`HTTPException` / unexpected exceptions into JSON error responses. -/
def auth_middleware (req : Request)
    (verifier : Str → Str → VerifierOutcome)
    (handler : HandlerOutcome) : MiddlewareResult :=
  match authenticate_request req verifier with
  | (evs, .error (.http s d)) =>
    { response := { status := s, authorization := none, detail := some d },
      trace := evs, state_headers := none }
  | (evs, .error (.unexpected m)) =>
    { response := unexpectedToResponse m, trace := evs, state_headers := none }
  | (evs, .ok response_auth) =>
    let headers := req.headers
    match response_auth with
    | some r =>
      match handler with
      | .ok resp =>
        if (r.token_type.getD " ".data) == "bearer".data then
          { response := { resp with
              authorization := some ("bearer ".data ++ r.access_token) },
            trace := evs ++ [.handlerCall], state_headers := some headers }
        else
          { response := { resp with
              authorization := some ((hGet headers "authorization".data).getD []) },
            trace := evs ++ [.handlerCall], state_headers := some headers }
      | .httpError s d =>
        { response := { status := s, authorization := none, detail := some d },
          trace := evs ++ [.handlerCall], state_headers := some headers }
      | .unexpected m =>
        { response := unexpectedToResponse m,
          trace := evs ++ [.handlerCall], state_headers := some headers }
    | none =>
      match handler with
      | .ok resp =>
        { response := resp, trace := evs ++ [.handlerCall],
          state_headers := some headers }
      | .httpError s d =>
        { response := { status := s, authorization := none, detail := some d },
          trace := evs ++ [.handlerCall], state_headers := some headers }
      | .unexpected m =>
        { response := unexpectedToResponse m,
          trace := evs ++ [.handlerCall], state_headers := some headers }

/-- The response produced for a handler outcome when no token rotation
applies: the handler's own response, or the translation of the exception it
raised. -/
def handlerResponse : HandlerOutcome → Response
  | .ok resp => resp
  | .httpError s d => { status := s, authorization := none, detail := some d }
  | .unexpected m => unexpectedToResponse m

/-- The `authorization` response-header value set by the verified branch of
`auth_middleware`: the rotated bearer token when the result's token type is
`bearer`, the inbound header value (or `""`) otherwise. -/
def rotatedAuthorization (req : Request) (r : VerifyResult) : Str :=
  if (r.token_type.getD " ".data) == "bearer".data then
    "bearer ".data ++ r.access_token
  else
    (hGet req.headers "authorization".data).getD []

/-! Concrete fixtures used by the witness theorems. -/

/-- A non-exempt request carrying an `Authorization` header and a `Host`
header with a port suffix. -/
def reqProtected : Request :=
  { path := "/agents/test/jsonrpc".data,
    headers := [("authorization".data, "Bearer abc".data),
                ("host".data, "example.com:8080".data)] }

/-- A non-exempt request with no headers at all. -/
def reqNoHeader : Request :=
  { path := "/agents/test/jsonrpc".data, headers := [] }

/-- A request to `/agents/test/ad.json` with no headers. -/
def reqAdJson : Request :=
  { path := "/agents/test/ad.json".data, headers := [] }

/-- A plain 200 handler response. -/
def okResp : Response := { status := 200, authorization := none, detail := none }

/-- A bearer-type verification result. -/
def bearerResult : VerifyResult :=
  { token_type := some "bearer".data, access_token := "newtok123".data }

/-- A verifier that always succeeds with `bearerResult`. -/
def verifierOk : Str → Str → VerifierOutcome := fun _ _ => .ok bearerResult

/-- A verifier that always raises `DidWbaVerifierError(403)`. -/
def verifierErr403 : Str → Str → VerifierOutcome :=
  fun _ _ => .didwbaError 403 "Unauthorized DID".data

/-- A verifier that always raises a non-typed exception whose message
contains both a credential keyword and an internal secret. -/
def verifierBoomSecret : Str → Str → VerifierOutcome :=
  fun _ _ => .unexpected "boom token xyzzy123".data

/-! ### Lemmas about the exemption matcher -/

/-- A string starts with itself. -/
theorem strStartsWith_self (s : Str) : strStartsWith s s = true := by
  induction s with
  | nil => rfl
  | cons c cs ih => simp [strStartsWith, ih]

/-- The loop body of `authenticate_request` agrees with the spec's
per-entry matching rule. -/
theorem exemptEntryMatches_eq_spec (path e : Str) :
    exemptEntryMatches path e = specEntryMatches path e := by
  unfold exemptEntryMatches specEntryMatches
  by_cases hroot : e == "/".data
  · simp [hroot]
  · simp only [hroot, Bool.false_eq_true, if_false]
    by_cases hsl : strEndsWith e "/".data
    · simp only [hsl, if_true, Bool.true_and, Bool.not_true, Bool.false_and,
        Bool.or_false]
      by_cases heq : path == e
      · have : path = e := by exact eq_of_beq heq
        subst this
        simp [strStartsWith_self]
      · simp [heq]
    · simp [hsl]

/-- First-match scan agrees with `List.find?` over the spec rule. -/
theorem findExemptMatch_eq_find (l : List Str) (path : Str) :
    findExemptMatch l path = l.find? (fun e => specEntryMatches path e) := by
  induction l with
  | nil => rfl
  | cons e rest ih =>
    simp only [findExemptMatch, List.find?, exemptEntryMatches_eq_spec]
    by_cases h : specEntryMatches path e
    · simp [h]
    · simp [h, ih]

/-- `isSome` of a first-match scan is `any`. -/
theorem findExemptMatch_isSome (l : List Str) (path : Str) :
    (findExemptMatch l path).isSome = l.any (fun e => specEntryMatches path e) := by
  induction l with
  | nil => rfl
  | cons e rest ih =>
    simp only [findExemptMatch, List.any_cons, exemptEntryMatches_eq_spec]
    by_cases h : specEntryMatches path e
    · simp [h]
    · simp [h, ih]

/-! ### Run-shape lemmas for `auth_middleware` -/

/-- Run shape: exempt path.  The handler runs directly, its outcome is passed
through (exceptions still translated by the outer handlers), and the inbound
headers are stored in request state. -/
theorem auth_middleware_exempt (req : Request)
    (verifier : Str → Str → VerifierOutcome) (handler : HandlerOutcome)
    (hex : isExemptPath req.path = true) :
    auth_middleware req verifier handler =
      { response := handlerResponse handler,
        trace := [.exemptionCheck true, .handlerCall],
        state_headers := some req.headers } := by
  cases handler <;>
    simp [auth_middleware, authenticate_request, hex, handlerResponse]

/-- Run shape: non-exempt path, absent or empty `Authorization` header.
401 with `"Missing authorization header"`, no external verifier call, no
handler call, request state untouched. -/
theorem auth_middleware_missing_header (req : Request)
    (verifier : Str → Str → VerifierOutcome) (handler : HandlerOutcome)
    (hex : isExemptPath req.path = false)
    (hmiss : (reqAuthorization req).getD [] = []) :
    auth_middleware req verifier handler =
      { response := { status := 401, authorization := none,
                      detail := some "Missing authorization header".data },
        trace := [.exemptionCheck false, .adapterCall],
        state_headers := none } := by
  simp [auth_middleware, authenticate_request, verify_auth_header, hex, hmiss]

/-- Run shape: non-exempt path, header present, external verifier raises
`DidWbaVerifierError`.  The error's status and message become the JSON
response, the handler never runs, request state untouched. -/
theorem auth_middleware_verifier_error (req : Request)
    (verifier : Str → Str → VerifierOutcome) (handler : HandlerOutcome)
    (a : Str) (s : Nat) (m : Str)
    (hex : isExemptPath req.path = false)
    (ha : reqAuthorization req = some a)
    (hne : (a == []) = false)
    (hv : verifier a (get_and_validate_domain req) = .didwbaError s m) :
    auth_middleware req verifier handler =
      { response := { status := s, authorization := none, detail := some m },
        trace := [.exemptionCheck false, .adapterCall,
                  .verifierCall a (get_and_validate_domain req)],
        state_headers := none } := by
  simp [auth_middleware, authenticate_request, verify_auth_header,
    hex, ha, hne, hv]

/-- Run shape: non-exempt path, header present, external verifier raises an
exception that is not a `DidWbaVerifierError`.  The keyword-sniffing
fallback produces the response; the handler never runs. -/
theorem auth_middleware_verifier_unexpected (req : Request)
    (verifier : Str → Str → VerifierOutcome) (handler : HandlerOutcome)
    (a : Str) (m : Str)
    (hex : isExemptPath req.path = false)
    (ha : reqAuthorization req = some a)
    (hne : (a == []) = false)
    (hv : verifier a (get_and_validate_domain req) = .unexpected m) :
    auth_middleware req verifier handler =
      { response := unexpectedToResponse m,
        trace := [.exemptionCheck false, .adapterCall,
                  .verifierCall a (get_and_validate_domain req)],
        state_headers := none } := by
  simp [auth_middleware, authenticate_request, verify_auth_header,
    hex, ha, hne, hv]

/-- Run shape: non-exempt path, header present, verification succeeds.  The
inbound headers are stored in request state, the handler runs, and on a
normal handler response the `authorization` response header is rotated
(bearer result) or set to the inbound header value (any other token type). -/
theorem auth_middleware_verified (req : Request)
    (verifier : Str → Str → VerifierOutcome) (handler : HandlerOutcome)
    (a : Str) (r : VerifyResult)
    (hex : isExemptPath req.path = false)
    (ha : reqAuthorization req = some a)
    (hne : (a == []) = false)
    (hv : verifier a (get_and_validate_domain req) = .ok r) :
    auth_middleware req verifier handler =
      { response :=
          match handler with
          | .ok resp =>
            { resp with authorization := some (rotatedAuthorization req r) }
          | .httpError s d =>
            { status := s, authorization := none, detail := some d }
          | .unexpected m => unexpectedToResponse m,
        trace := [.exemptionCheck false, .adapterCall,
                  .verifierCall a (get_and_validate_domain req), .handlerCall],
        state_headers := some req.headers } := by
  cases handler with
  | ok resp =>
    by_cases hb : (r.token_type.getD " ".data) == "bearer".data <;>
      simp [auth_middleware, authenticate_request, verify_auth_header,
        rotatedAuthorization, hex, ha, hne, hv, hb]
  | httpError s d =>
    simp [auth_middleware, authenticate_request, verify_auth_header,
      hex, ha, hne, hv]
  | unexpected m =>
    simp [auth_middleware, authenticate_request, verify_auth_header,
      hex, ha, hne, hv]

/-- Either the effective `Authorization` header is falsy (absent or empty),
or it is a concrete non-empty value. -/
theorem reqAuthorization_cases (req : Request) :
    (reqAuthorization req).getD [] = [] ∨
    (reqAuthorization req = some ((reqAuthorization req).getD []) ∧
      (((reqAuthorization req).getD []) == []) = false) := by
  cases h : reqAuthorization req with
  | none => left; rfl
  | some a =>
    cases a with
    | nil => left; rfl
    | cons c cs => right; simp

/-! ### Claim theorems -/

/-- C1: for every request path, the exemption matcher of
`authenticate_request` returns exempt exactly when some entry of
`EXEMPT_PATHS` matches under the spec's rules (root exact-match only, `/`-
terminated entries as pure prefixes, other entries as exact or `E ++ "/"`
prefixes), and the entry found is the first spec-matching entry in
declaration order. -/
theorem exemption_matcher_correct (path : Str) :
    isExemptPath path = EXEMPT_PATHS.any (fun e => specEntryMatches path e) ∧
    findExemptMatch EXEMPT_PATHS path =
      EXEMPT_PATHS.find? (fun e => specEntryMatches path e) := by
  exact ⟨findExemptMatch_isSome EXEMPT_PATHS path,
         findExemptMatch_eq_find EXEMPT_PATHS path⟩

/-- C2: per middleware pass, an exempt path never reaches the Verifier
Adapter or the external verifier; a non-exempt path reaches the Verifier
Adapter (`verify_auth_header`) exactly once, and the downstream handler runs
only after that single verification succeeded — the trace is then exactly
exemption check, adapter call, verifier call, handler call, in that order. -/
theorem middleware_ordering (req : Request)
    (verifier : Str → Str → VerifierOutcome) (handler : HandlerOutcome) :
    (isExemptPath req.path = true →
      Event.adapterCall ∉ (auth_middleware req verifier handler).trace ∧
      ∀ a d, Event.verifierCall a d ∉ (auth_middleware req verifier handler).trace) ∧
    (isExemptPath req.path = false →
      (auth_middleware req verifier handler).trace.count Event.adapterCall = 1 ∧
      (Event.handlerCall ∈ (auth_middleware req verifier handler).trace →
        ∃ a r, reqAuthorization req = some a ∧ (a == []) = false ∧
          verifier a (get_and_validate_domain req) = .ok r ∧
          (auth_middleware req verifier handler).trace =
            [Event.exemptionCheck false, Event.adapterCall,
             Event.verifierCall a (get_and_validate_domain req),
             Event.handlerCall])) := by
  constructor
  · intro hex
    rw [auth_middleware_exempt req verifier handler hex]
    simp
  · intro hex
    rcases reqAuthorization_cases req with hmiss | ⟨ha, hne⟩
    · rw [auth_middleware_missing_header req verifier handler hex hmiss]
      simp [List.count_cons]
    · cases hv : verifier ((reqAuthorization req).getD [])
        (get_and_validate_domain req) with
      | ok r =>
        rw [auth_middleware_verified req verifier handler _ r hex ha hne hv]
        refine ⟨by simp [List.count_cons], fun _ => ?_⟩
        exact ⟨(reqAuthorization req).getD [], r, ha, hne, hv, rfl⟩
      | didwbaError s m =>
        rw [auth_middleware_verifier_error req verifier handler _ s m hex ha hne hv]
        simp [List.count_cons]
      | unexpected m =>
        rw [auth_middleware_verifier_unexpected req verifier handler _ m hex ha hne hv]
        simp [List.count_cons]

/-- Witness for C2 at a concrete non-exempt request with a succeeding
verifier: the adapter is called exactly once. -/
theorem middleware_ordering_witness :
    (auth_middleware reqProtected verifierOk (.ok okResp)).trace.count
      Event.adapterCall = 1 :=
  ((middleware_ordering reqProtected verifierOk (.ok okResp)).2 (by decide)).1

/-- C3: on a non-exempt path with an absent or empty `Authorization` header,
the middleware answers 401 with detail `"Missing authorization header"` and
the external verifier is never invoked. -/
theorem missing_header_401 (req : Request)
    (verifier : Str → Str → VerifierOutcome) (handler : HandlerOutcome)
    (hex : isExemptPath req.path = false)
    (hmiss : (reqAuthorization req).getD [] = []) :
    (auth_middleware req verifier handler).response.status = 401 ∧
    (auth_middleware req verifier handler).response.detail =
      some "Missing authorization header".data ∧
    (∀ a d, Event.verifierCall a d ∉ (auth_middleware req verifier handler).trace) ∧
    Event.handlerCall ∉ (auth_middleware req verifier handler).trace := by
  rw [auth_middleware_missing_header req verifier handler hex hmiss]
  simp

/-- Witness for C3: a header-less request to `/agents/test/jsonrpc` gets a
401 with the missing-header detail. -/
theorem missing_header_401_witness :
    (auth_middleware reqNoHeader verifierOk (.ok okResp)).response.status = 401 ∧
    (auth_middleware reqNoHeader verifierOk (.ok okResp)).response.detail =
      some "Missing authorization header".data :=
  ⟨(missing_header_401 reqNoHeader verifierOk (.ok okResp)
      (by decide) (by decide)).1,
   (missing_header_401 reqNoHeader verifierOk (.ok okResp)
      (by decide) (by decide)).2.1⟩

/-- C4: on a successfully verified request, a bearer-type result overwrites
the response's `authorization` header with `"bearer " ++ access_token`; any
other (or missing) token type sets it to the inbound header value. -/
theorem token_rotation (req : Request)
    (verifier : Str → Str → VerifierOutcome) (resp : Response)
    (a : Str) (r : VerifyResult)
    (hex : isExemptPath req.path = false)
    (ha : reqAuthorization req = some a)
    (hne : (a == []) = false)
    (hv : verifier a (get_and_validate_domain req) = .ok r) :
    (((r.token_type.getD " ".data) == "bearer".data) = true →
      (auth_middleware req verifier (.ok resp)).response.authorization =
        some ("bearer ".data ++ r.access_token)) ∧
    (((r.token_type.getD " ".data) == "bearer".data) = false →
      (auth_middleware req verifier (.ok resp)).response.authorization =
        some a) := by
  rw [auth_middleware_verified req verifier (.ok resp) a r hex ha hne hv]
  have ha' : hGet req.headers "authorization".data = some a := ha
  constructor <;> intro hb <;> simp [rotatedAuthorization, hb, ha']

/-- Witness for C4: concrete bearer-type verification rotates the header. -/
theorem token_rotation_witness :
    (auth_middleware reqProtected verifierOk (.ok okResp)).response.authorization =
      some ("bearer ".data ++ bearerResult.access_token) :=
  (token_rotation reqProtected verifierOk okResp "Bearer abc".data bearerResult
    (by decide) (by decide) (by decide) (by decide)).1 (by decide)

/-- C5: a `DidWbaVerifierError` from the external verifier produces a
response with exactly the verifier's status code and message as JSON
`{"detail": ...}`, and the downstream handler never runs. -/
theorem verifier_error_passthrough (req : Request)
    (verifier : Str → Str → VerifierOutcome) (handler : HandlerOutcome)
    (a : Str) (s : Nat) (m : Str)
    (hex : isExemptPath req.path = false)
    (ha : reqAuthorization req = some a)
    (hne : (a == []) = false)
    (hv : verifier a (get_and_validate_domain req) = .didwbaError s m) :
    (auth_middleware req verifier handler).response =
      { status := s, authorization := none, detail := some m } ∧
    Event.handlerCall ∉ (auth_middleware req verifier handler).trace := by
  rw [auth_middleware_verifier_error req verifier handler a s m hex ha hne hv]
  simp

/-- Witness for C5: a 403 `DidWbaVerifierError` is passed through as a 403
JSON error response. -/
theorem verifier_error_passthrough_witness :
    (auth_middleware reqProtected verifierErr403 (.ok okResp)).response =
      { status := 403, authorization := none,
        detail := some "Unauthorized DID".data } :=
  (verifier_error_passthrough reqProtected verifierErr403 (.ok okResp)
    "Bearer abc".data 403 "Unauthorized DID".data
    (by decide) (by decide) (by decide) (by decide)).1

/-- Counterexample to C6: an unexpected exception with message
`"boom token xyzzy123"` (keyword `"token"` present) yields a 401 whose
detail embeds the full internal exception text — not a generic message, so
the internal error detail does reach the client. -/
theorem keyword_fallback_leaks_detail_cex :
    (auth_middleware reqProtected verifierBoomSecret (.ok okResp)).response.status
      = 401 ∧
    (auth_middleware reqProtected verifierBoomSecret (.ok okResp)).response.detail
      = some "Authentication error: boom token xyzzy123".data ∧
    strContains
      (((auth_middleware reqProtected verifierBoomSecret (.ok okResp)).response.detail).getD [])
      "xyzzy123".data = true := by
  refine ⟨by decide, by decide, by decide⟩

/-- C6 (amended): for an uncaught non-typed exception, a credential keyword
in the lowercased message yields a 401 whose detail is
`"Authentication error: "` followed by the full exception text (the internal
detail is embedded, not hidden); otherwise a 500 with only the generic
message `"Internal server error"`. -/
theorem keyword_fallback_amended (req : Request)
    (verifier : Str → Str → VerifierOutcome) (handler : HandlerOutcome)
    (a : Str) (m : Str)
    (hex : isExemptPath req.path = false)
    (ha : reqAuthorization req = some a)
    (hne : (a == []) = false)
    (hv : verifier a (get_and_validate_domain req) = .unexpected m) :
    (keywordMatch m = true →
      (auth_middleware req verifier handler).response =
        { status := 401, authorization := none,
          detail := some ("Authentication error: ".data ++ m) }) ∧
    (keywordMatch m = false →
      (auth_middleware req verifier handler).response =
        { status := 500, authorization := none,
          detail := some "Internal server error".data }) := by
  rw [auth_middleware_verifier_unexpected req verifier handler a m hex ha hne hv]
  constructor <;> intro hk <;> simp [unexpectedToResponse, hk]

/-- Witness for the amended C6: the concrete keyword-bearing exception. -/
theorem keyword_fallback_amended_witness :
    (auth_middleware reqProtected verifierBoomSecret (.ok okResp)).response =
      { status := 401, authorization := none,
        detail := some "Authentication error: boom token xyzzy123".data } :=
  (keyword_fallback_amended reqProtected verifierBoomSecret (.ok okResp)
    "Bearer abc".data "boom token xyzzy123".data
    (by decide) (by decide) (by decide) (by decide)).1 (by decide)

/-- Counterexample to C7: `/agents/test/ad.json` is in `EXEMPT_PATHS`, so a
GET with no `Authorization` header is answered by the downstream handler
(here 200), not by a 401. -/
theorem ad_json_exempt_cex :
    isExemptPath "/agents/test/ad.json".data = true ∧
    (auth_middleware reqAdJson verifierOk (.ok okResp)).response.status = 200 ∧
    ¬(auth_middleware reqAdJson verifierOk (.ok okResp)).response.status = 401 := by
  refine ⟨by decide, by decide, by decide⟩

/-- C7 (amended): `/agents/test/ad.json` is exempt — a request to it with no
`Authorization` header bypasses authentication entirely: the handler's
response is passed through unmodified and `verify_auth_header` is never
entered, so no 401 is produced by the middleware. -/
theorem ad_json_exempt (verifier : Str → Str → VerifierOutcome)
    (resp : Response) :
    isExemptPath "/agents/test/ad.json".data = true ∧
    (auth_middleware reqAdJson verifier (.ok resp)).response = resp ∧
    Event.adapterCall ∉ (auth_middleware reqAdJson verifier (.ok resp)).trace := by
  rw [auth_middleware_exempt reqAdJson verifier (.ok resp) (by decide)]
  exact ⟨by decide, rfl, by simp⟩

/-- Characters before an embedded `':'` are exactly what `takeWhile` keeps. -/
theorem takeWhile_until_colon (h p : Str) (hc : ∀ c ∈ h, c ≠ ':') :
    (h ++ ':' :: p).takeWhile (fun c => c != ':') = h := by
  induction h with
  | nil => simp
  | cons c cs ih =>
    have hcne : c ≠ ':' := hc c (by simp)
    have ih' := ih (fun x hx => hc x (by simp [hx]))
    simp [List.takeWhile_cons, hcne, ih']

/-- C8: the domain handed to the external verifier is always
`_get_and_validate_domain` of the request — the Host header value stripped at
the first `":"` — which is the empty string when Host is absent and exactly
`h` when Host is `h:port` with `h` colon-free. -/
theorem domain_stripping (req : Request)
    (verifier : Str → Str → VerifierOutcome) (handler : HandlerOutcome) :
    (∀ a d, Event.verifierCall a d ∈ (auth_middleware req verifier handler).trace →
      d = get_and_validate_domain req) ∧
    (reqHost req = none → get_and_validate_domain req = []) ∧
    (∀ h p : Str, reqHost req = some (h ++ ':' :: p) → (∀ c ∈ h, c ≠ ':') →
      get_and_validate_domain req = h) := by
  refine ⟨?_, ?_, ?_⟩
  · intro a d hmem
    cases hex : isExemptPath req.path with
    | true =>
      rw [auth_middleware_exempt req verifier handler hex] at hmem
      simp at hmem
    | false =>
      rcases reqAuthorization_cases req with hmiss | ⟨ha, hne⟩
      · rw [auth_middleware_missing_header req verifier handler hex hmiss] at hmem
        simp at hmem
      · cases hv : verifier ((reqAuthorization req).getD [])
          (get_and_validate_domain req) with
        | ok r =>
          rw [auth_middleware_verified req verifier handler _ r hex ha hne hv]
            at hmem
          simp at hmem
          exact hmem.2
        | didwbaError s m =>
          rw [auth_middleware_verifier_error req verifier handler _ s m
            hex ha hne hv] at hmem
          simp at hmem
          exact hmem.2
        | unexpected m =>
          rw [auth_middleware_verifier_unexpected req verifier handler _ m
            hex ha hne hv] at hmem
          simp at hmem
          exact hmem.2
  · intro hh
    simp [get_and_validate_domain, hh]
  · intro h p hh hc
    simp [get_and_validate_domain, hh, takeWhile_until_colon h p hc]

/-- Witness for C8: Host `example.com:8080` yields domain `example.com`. -/
theorem domain_stripping_witness :
    get_and_validate_domain reqProtected = "example.com".data :=
  (domain_stripping reqProtected verifierOk (.ok okResp)).2.2
    "example.com".data "8080".data (by decide) (by decide)

/-- C9: on every non-rejected pass — exempt and verified paths alike —
`request.state.headers` is set to the full inbound header dict, and the
downstream handler is then invoked. -/
theorem state_headers_set (req : Request)
    (verifier : Str → Str → VerifierOutcome) (handler : HandlerOutcome) :
    (isExemptPath req.path = true →
      (auth_middleware req verifier handler).state_headers = some req.headers ∧
      Event.handlerCall ∈ (auth_middleware req verifier handler).trace) ∧
    (∀ a r, isExemptPath req.path = false →
      reqAuthorization req = some a → (a == []) = false →
      verifier a (get_and_validate_domain req) = .ok r →
      (auth_middleware req verifier handler).state_headers = some req.headers ∧
      Event.handlerCall ∈ (auth_middleware req verifier handler).trace) := by
  constructor
  · intro hex
    rw [auth_middleware_exempt req verifier handler hex]
    simp
  · intro a r hex ha hne hv
    rw [auth_middleware_verified req verifier handler a r hex ha hne hv]
    simp

/-- Witness for C9: the exempt request to `/agents/test/ad.json` stores its
header dict in request state. -/
theorem state_headers_set_witness :
    (auth_middleware reqAdJson verifierOk (.ok okResp)).state_headers =
      some reqAdJson.headers :=
  ((state_headers_set reqAdJson verifierOk (.ok okResp)).1 (by decide)).1

/-- C10: the keyword 401 fallback also catches exceptions raised by the
downstream handler itself — on exempt paths and on already-verified paths
alike, a handler exception whose message holds a credential keyword produces
a 401 whose detail embeds the exception text. -/
theorem handler_exception_fallback (req : Request)
    (verifier : Str → Str → VerifierOutcome) (m : Str)
    (hk : keywordMatch m = true) :
    (isExemptPath req.path = true →
      (auth_middleware req verifier (.unexpected m)).response =
        { status := 401, authorization := none,
          detail := some ("Authentication error: ".data ++ m) }) ∧
    (∀ a r, isExemptPath req.path = false →
      reqAuthorization req = some a → (a == []) = false →
      verifier a (get_and_validate_domain req) = .ok r →
      (auth_middleware req verifier (.unexpected m)).response =
        { status := 401, authorization := none,
          detail := some ("Authentication error: ".data ++ m) }) := by
  constructor
  · intro hex
    rw [auth_middleware_exempt req verifier (.unexpected m) hex]
    simp [handlerResponse, unexpectedToResponse, hk]
  · intro a r hex ha hne hv
    rw [auth_middleware_verified req verifier (.unexpected m) a r hex ha hne hv]
    simp [unexpectedToResponse, hk]

/-- Witness for C10: a handler exception `"bad token"` on the exempt
`/agents/test/ad.json` path becomes a 401 embedding the exception text. -/
theorem handler_exception_fallback_witness :
    (auth_middleware reqAdJson verifierOk (.unexpected "bad token".data)).response =
      { status := 401, authorization := none,
        detail := some ("Authentication error: ".data ++ "bad token".data) } :=
  (handler_exception_fallback reqAdJson verifierOk "bad token".data
    (by decide)).1 (by decide)

end Anp
